import Mathlib

/-!
Verification of the control-loop client `ZeepkistStreamerClient.py`.

The Python program is shallowly embedded: the MessagePack value space is the
inductive `MVal`; module-level shared state (`latest_state`, `waiting_state`,
`latest_cmd`) is the structure `Global`; each thread's loop body becomes a pure
Lean function over that state, with the nondeterministic environment (message
arrival times, send failures, random draws of the policy) passed explicitly.
Wall-clock quantities are rationals (seconds) or naturals (milliseconds);
Python floats are modelled as exact rationals.
-/

namespace ZeepkistClient

/-- A decoded MessagePack value, as produced by `msgpack.unpackb` and consumed
by the Python code through `dict.get` lookups. -/
inductive MVal where
  | str (s : String)
  | num (q : ℚ)
  | boolean (b : Bool)
  | dict (entries : List (String × MVal))
  | arr (elems : List MVal)

/-- Python `d.get(key)` on a dict: first binding for `key`, if any. -/
def dictFind : List (String × MVal) → String → Option MVal
  | [], _ => none
  | (k, v) :: rest, key => if k == key then some v else dictFind rest key

/-- Whether a decoded value is a dict; `latest_state.get(...)` in `on_message`
raises unless the decoded object is a dict. -/
def isDict : MVal → Bool
  | .dict _ => true
  | _ => false

/-- An inbound websocket message as seen by `on_message` (line 33).
`binary none` models a binary frame on which `msgpack.unpackb` raises
(decoding is an external collaborator; we model only its outcome);
`binary (some v)` a binary frame decoding to `v`; `text` a text frame. -/
inductive Message where
  | text (s : String)
  | binary (decoded : Option MVal)

/-- The module-level shared state of the program (lines 17-22):
`latest_state` (written by `on_message`), `waiting_state` (the pending-request
flag), `latest_cmd` (written by the sequence thread). -/
structure Global where
  latest_state : Option MVal
  waiting_state : Bool
  latest_cmd : Option MVal

/-- Whether the nested reads of `on_message` (lines 44-48) succeed on a
decoded dict: `state = latest_state.get("state", {})` always succeeds on a
dict, but the subsequent `state.get("position", [0,0,0])` (and the further
reads on the same `state` value) raises unless `state` is itself a dict —
i.e. unless the "state" field is absent (the `{}` default is a dict) or maps
to a dict. -/
def stateFieldOk (entries : List (String × MVal)) : Bool :=
  match dictFind entries "state" with
  | none => true
  | some v => isDict v

/-- Whether a decoded inbound object makes `on_message` reach the
`waiting_state = False` line (lines 58-59): the object must be a dict (else
the `.get` at line 44 raises) whose "state" field, when present, is itself a
dict (else the `.get` at line 45 raises); either raise is caught by the
`except` block after `latest_state` was already overwritten, skipping the
flag clear. -/
def clearsFlag : MVal → Bool
  | .dict entries => stateFieldOk entries
  | _ => false

/-- Embedding of `on_message` (lines 33-65).  Control flow of the source:
a text frame is only printed; a binary frame that fails to unpack raises,
and the surrounding `try/except` leaves all state unchanged; a binary frame
decoding to `obj` first executes `latest_state = obj` (line 43), then the
reads of lines 44-48 — which raise (caught, the assignment kept) when `obj`
is not a dict or its "state" field is a non-dict (see `clearsFlag`) — and
only then clears `waiting_state` under the lock. -/
def on_message (msg : Message) (g : Global) : Global :=
  match msg with
  | .text _ => g
  | .binary none => g
  | .binary (some obj) =>
    let g1 : Global := { g with latest_state := some obj }
    if clearsFlag obj then { g1 with waiting_state := false } else g1

/-- Embedding of `clamp` (lines 157-158): `max(a, min(b, v))`. -/
def clamp (v a b : ℚ) : ℚ := max a (min b v)

/-- Embedding of Python `int()` applied to a rational: truncation toward 0. -/
def pyTrunc (q : ℚ) : ℤ := if 0 ≤ q then ⌊q⌋ else -⌊-q⌋

/-- Embedding of `map_stick_x` (lines 160-162): `clamp(v if v is not None
else 0.0, -1.0, 1.0)`. -/
def map_stick_x (v : Option ℚ) : ℚ := clamp (v.getD 0) (-1) 1

/-- Embedding of `map_trigger` (lines 164-167): clamp into `[0,1]`, scale by
255, truncate with `int()`. -/
def map_trigger (v : Option ℚ) : ℤ := pyTrunc (clamp (v.getD 0) 0 1 * 255)

/-! ## Sequence thread (request → wait → decide → publish), lines 81-142 -/

/-- The bounded poll of `sequence_thread` (lines 105-118), in milliseconds.
`cleared w` is whether `waiting_state` reads `false` at the top-of-loop check
performed after `w` ms of accumulated sleeping; `remaining` is the sleep
budget left before `waited >= timeout` (250 ms with 1 ms poll).  Each
iteration: check the flag (break if cleared), sleep 1 ms, break once
`waited` reaches 250.  Returns total accumulated waiting in ms. -/
def pollLoop (cleared : Nat → Bool) (waited : Nat) : Nat → Nat
  | 0 => waited
  | r + 1 => if cleared waited then waited else pollLoop cleared (waited + 1) r

/-- The poll entered with `waited = 0` and the full 250 ms budget
(`timeout = 0.25`, `poll = 0.001`, source lines 106-108). -/
def pollWait (cleared : Nat → Bool) : Nat := pollLoop cleared 0 250

/-- The random draws consumed by one `ml_policy` call (lines 269-281);
`random.uniform`/`random.random` are external, so the draws are parameters. -/
structure RandomDraws where
  steer : ℚ
  brake : ℚ
  armsUp : ℚ

/-- Embedding of `ml_policy` (lines 269-281): ignores its `state` argument and
returns an ACTION dict with the drawn fields and `reset = 0.0`. -/
def ml_policy (rnd : RandomDraws) (state : Option MVal) : MVal :=
  .dict [("cmd", .str "ACTION"),
         ("steer", .num rnd.steer),
         ("brake", .num rnd.brake),
         ("armsUp", .num rnd.armsUp),
         ("reset", .num 0)]

/-- The environment of one sequence-thread tick: whether `ws.send` raises in
`request_state` (the exception is caught at lines 149-153, so it only logs),
the inbound state response (arrival time in ms after the request, and the
decoded payload) if one is delivered during this tick's window, and the
policy's random draws. -/
structure TickEnv where
  sendFails : Bool
  response : Option (Nat × MVal)
  rnd : RandomDraws

/-- The waiting-flag observations induced by the tick's response: at poll
check `w` the flag reads cleared iff a response arrived at time `k ≤ w` and
made `on_message` reach the flag clear — it decoded to a dict whose "state"
field, when present, is itself a dict (see `clearsFlag`). -/
def respCleared (response : Option (Nat × MVal)) : Nat → Bool :=
  fun w =>
    match response with
    | some (k, v) => decide (k ≤ w) && clearsFlag v
    | none => false

/-- The shared state after a tick's request/poll phase (lines 101-118): the
waiting flag is set, the request sent (`request_state` never propagates an
exception), and a response arriving at `k < 250` ms is delivered through
`on_message` within the window (later arrivals fall to a subsequent tick). -/
def afterPoll (env : TickEnv) (g : Global) : Global :=
  let g1 : Global := { g with waiting_state := true }
  match env.response with
  | some (k, v) => if k < 250 then on_message (.binary (some v)) g1 else g1
  | none => g1

/-- Whether the snapshot copy at lines 121-124 succeeds: vacuously when
`latest_state` is `None` (the copy is guarded by `is not None`), and
otherwise exactly when the stored value is a dict — `dict(latest_state)`
raises an uncaught `TypeError`/`ValueError` on the non-dict values a binary
frame can leave there (`on_message` assigns before its own reads raise). -/
def snapshotOk : Option MVal → Bool
  | none => true
  | some s => isDict s

/-- One iteration of the `while True` body of `sequence_thread`
(lines 98-142), state part: request/poll phase (`afterPoll`), then the
snapshot copy of `latest_state`; when the copy succeeds (`snapshotOk`) the
tick runs `ml_policy` on the snapshot and publishes into `latest_cmd`;
when it raises, the exception is uncaught in `sequence_thread`, the thread
dies and nothing is published (`none`). -/
def seqTick (env : TickEnv) (g : Global) : Option Global :=
  let g2 := afterPoll env g
  if snapshotOk g2.latest_state then
    some { g2 with latest_cmd := some (ml_policy env.rnd g2.latest_state) }
  else none

/-- The observable events of one sequence-thread tick. -/
inductive SeqEvent where
  | sendRequest
  | resolveResponse
  | resolveTimeout
  | publish
deriving DecidableEq

/-- Event trace of one tick (lines 98-142): the request is always sent (send
errors are caught inside `request_state`); the wait always resolves — by
response when the poll broke on the cleared flag (`waited < 250`), by
timeout otherwise; the action is published only when the snapshot copy at
line 124 does not raise (see `snapshotOk`) — a raising copy kills the
thread before the publish. -/
def tickEvents (env : TickEnv) (g : Global) : List SeqEvent :=
  SeqEvent.sendRequest ::
  (if pollWait (respCleared env.response) < 250 then SeqEvent.resolveResponse
   else SeqEvent.resolveTimeout) ::
  (if snapshotOk (afterPoll env g).latest_state then [SeqEvent.publish] else [])

/-- The sequence loop over its first `n` ticks: threads the shared state and
collects the events; once a tick's snapshot copy raises the thread is dead
(`none`) and no further events are produced. -/
def seqRun (envs : Nat → TickEnv) (g : Global) : Nat → Option Global × List SeqEvent
  | 0 => (some g, [])
  | n + 1 =>
    match seqRun envs g n with
    | (some gn, evs) => (seqTick (envs n) gn, evs ++ tickEvents (envs n) gn)
    | (none, evs) => (none, evs)

/-- Number of `sendRequest` events in a trace. -/
def numSends : List SeqEvent → Nat
  | [] => 0
  | SeqEvent.sendRequest :: l => numSends l + 1
  | _ :: l => numSends l

/-- Whether an event resolves the outstanding request (by response or by
timeout). -/
def isResolve : SeqEvent → Bool
  | SeqEvent.resolveResponse => true
  | SeqEvent.resolveTimeout => true
  | _ => false

/-- Number of resolve events in a trace. -/
def numResolves : List SeqEvent → Nat
  | [] => 0
  | e :: l => (if isResolve e then 1 else 0) + numResolves l

/-! ## Virtual controller thread (lines 157-253) and startup (lines 257-329) -/

/-- Python `dict(x)` applied to the stored command (line 187): the entries
when `x` is a dict.  `dict()` of a non-dict raises in Python; that case is
unreachable here because `latest_cmd` only ever holds `ml_policy` output,
and is mapped to the empty dict. -/
def asDictEntries : MVal → List (String × MVal)
  | .dict es => es
  | _ => []

/-- The entries of the command observed by a controller tick (`[]` when no
command was published yet). -/
def cmdEntries : Option MVal → List (String × MVal)
  | some c => asDictEntries c
  | none => []

/-- The guard `cmd is not None and cmd.get("cmd") == "ACTION"` (line 195). -/
def isActionCmd : Option MVal → Bool
  | none => false
  | some c =>
    match dictFind (asDictEntries c) "cmd" with
    | some (.str s) => s == "ACTION"
    | _ => false

/-- The read `float(cmd.get(key, 0.0))` (lines 196-199): the field's rational
when present and numeric, the `0.0` default when absent.  `float()` of a
non-numeric value would raise in Python; that case is unreachable (the fields
of `ml_policy` output are numeric) and is mapped to 0. -/
def getNum (entries : List (String × MVal)) (key : String) : ℚ :=
  match dictFind entries key with
  | some (.num q) => q
  | _ => 0

/-- A press or release of the Y button issued to the virtual pad
(`press_button` / `release_button`, lines 234 and 238). -/
inductive PadEvent where
  | press
  | release
deriving DecidableEq

/-- What one controller tick pushes to the effector: left stick, triggers,
and the Y-button events issued this tick. -/
structure EffectorOut where
  stickX : ℚ
  stickY : ℚ
  leftTrigger : ℤ
  rightTrigger : ℤ
  events : List PadEvent

/-- One iteration of the `while True` body of `virtual_controller_loop`
(lines 180-253): snapshot `latest_cmd` (the `dict()` copy is the identity in
this value model), default all control fields to `0.0`, overwrite them from
the command only when it is an ACTION (lines 189-199), map steer through
`map_stick_x` and brake/armsUp through `map_trigger`, and drive the Y button
from `reset` (lines 232-239): when `reset > 0.5` a press is issued (every
such tick) and the latch is set; otherwise a release is issued only when the
latch was set, and the latch is cleared.  Returns the effector output and
the new `last_reset_pressed` latch. -/
def vcTick (cmd : Option MVal) (lastResetPressed : Bool) : EffectorOut × Bool :=
  let es := cmdEntries cmd
  let steer := if isActionCmd cmd then getNum es "steer" else 0
  let brake := if isActionCmd cmd then getNum es "brake" else 0
  let armsUp := if isActionCmd cmd then getNum es "armsUp" else 0
  let reset := if isActionCmd cmd then getNum es "reset" else 0
  let sx := map_stick_x (some steer)
  let lTrig := map_trigger (some brake)
  let rTrig := map_trigger (some armsUp)
  if reset > 1/2 then
    ({ stickX := sx, stickY := 0, leftTrigger := lTrig, rightTrigger := rTrig,
       events := [PadEvent.press] }, true)
  else if lastResetPressed then
    ({ stickX := sx, stickY := 0, leftTrigger := lTrig, rightTrigger := rTrig,
       events := [PadEvent.release] }, false)
  else
    ({ stickX := sx, stickY := 0, leftTrigger := lTrig, rightTrigger := rTrig,
       events := [] }, false)

/-- Successive controller ticks over the list of commands each tick observes,
threading the `last_reset_pressed` latch and collecting the Y-button events
in order. -/
def vcRun (cmds : List (Option MVal)) (lastResetPressed : Bool) : List PadEvent :=
  match cmds with
  | [] => []
  | c :: rest =>
    let out := vcTick c lastResetPressed
    out.1.events ++ vcRun rest out.2

/-- `virtual_controller_loop` (lines 169-253) as observed through the pad's
button events: with no pad it returns immediately at lines 174-176, running
no tick at all; with a pad it iterates `vcTick` with the latch initially
unset (line 179). -/
def virtual_controller_loop (pad : Option Unit) (cmds : List (Option MVal)) :
    List PadEvent :=
  match pad with
  | none => []
  | some _ => vcRun cmds false

/-- An ACTION command whose only control field is the given reset value. -/
def actionWithReset (r : ℚ) : MVal :=
  .dict [("cmd", .str "ACTION"), ("reset", .num r)]

/-- The reset values of the button-latch test stream. -/
def resetStream : List ℚ := [0, 9/10, 9/10, 3/10, 0]

/-- `UPDATE_HZ` (line 28). -/
def UPDATE_HZ : ℚ := 20

/-- `UPDATE_INTERVAL = 1.0 / UPDATE_HZ` (line 29). -/
def UPDATE_INTERVAL : ℚ := 1 / UPDATE_HZ

/-- End-of-tick pacing of `sequence_thread` (lines 136-142), with
`dt = 1.0 / UPDATE_HZ` (line 92): seconds slept as a function of the tick's
elapsed time. -/
def seqEndSleep (elapsed : ℚ) : ℚ :=
  let dt := 1 / UPDATE_HZ
  let remaining := dt - elapsed
  if remaining > 0 then remaining else 1/1000

/-- End-of-tick pacing of `virtual_controller_loop` (lines 248-253). -/
def vcEndSleep (elapsed : ℚ) : ℚ :=
  let sleep_t := UPDATE_INTERVAL - elapsed
  if sleep_t > 0 then sleep_t else 1/1000

/-- The observable startup events of `start()` and its websocket
supervision. -/
inductive MainEvent where
  | padCreate (ok : Bool)
  | vcThreadStart
  | wsAppCreate
  | connectAttempt
  | retrySleep (seconds : ℚ)
  | startReturn
deriving DecidableEq

/-- Embedding of `start()` (lines 307-329): create the virtual pad
(`create_virtual_x360`, lines 257-265, returns `None` on failure); on failure
print and return before the controller thread is started, the `WebSocketApp`
is built, or any connection is attempted; on success start the controller
thread, build the `WebSocketApp` and call `run_forever()` with no `reconnect`
argument — the websocket-client library (external collaborator) then performs
a single connection attempt and returns once it fails or closes, modelled as
one `connectAttempt`.  `on_error`/`on_close` (lines 67-71) only log; `start`
contains no loop and no delay around `run_forever`, so when it returns,
`start()` returns. -/
def startEvents (padOk : Bool) : List MainEvent :=
  MainEvent.padCreate padOk ::
    (if padOk then
      [MainEvent.vcThreadStart, MainEvent.wsAppCreate,
       MainEvent.connectAttempt, MainEvent.startReturn]
    else [MainEvent.startReturn])

/-- Number of connection attempts in a startup/supervision trace. -/
def numConnectAttempts : List MainEvent → Nat
  | [] => 0
  | MainEvent.connectAttempt :: l => numConnectAttempts l + 1
  | _ :: l => numConnectAttempts l

/-! ## Theorems -/

theorem numSends_append (l1 l2 : List SeqEvent) :
    numSends (l1 ++ l2) = numSends l1 + numSends l2 := by
  induction l1 with
  | nil => simp [numSends]
  | cons e l ih =>
    cases e <;> simp [numSends, ih] <;> omega

theorem numResolves_append (l1 l2 : List SeqEvent) :
    numResolves (l1 ++ l2) = numResolves l1 + numResolves l2 := by
  induction l1 with
  | nil => simp [numResolves]
  | cons e l ih => simp [numResolves, ih]; omega

/-- The poll loop accumulates at most `waited + remaining` ms. -/
theorem pollLoop_le (cleared : Nat → Bool) (waited r : Nat) :
    pollLoop cleared waited r ≤ waited + r := by
  induction r generalizing waited with
  | zero => simp [pollLoop]
  | succ r ih =>
    simp only [pollLoop]
    split
    · omega
    · exact (ih (waited + 1)).trans (by omega)

theorem numSends_take_le (l : List SeqEvent) (k : Nat) :
    numSends (l.take k) ≤ numSends l := by
  induction l generalizing k with
  | nil => simp [List.take_nil]
  | cons e t ih =>
    cases k with
    | zero => simp [numSends]
    | succ k =>
      rw [List.take_succ_cons]
      cases e <;> simp only [numSends] <;>
        first
          | exact Nat.succ_le_succ (ih k)
          | exact ih k

theorem block_take_bound (r : SeqEvent) (hr : isResolve r = true)
    (p : List SeqEvent) (hp : numSends p = 0) (k : Nat) :
    numSends ((SeqEvent.sendRequest :: r :: p).take k) ≤
      numResolves ((SeqEvent.sendRequest :: r :: p).take k) + 1 := by
  have hr' : r = SeqEvent.resolveResponse ∨ r = SeqEvent.resolveTimeout := by
    cases r <;> simp [isResolve] at hr <;> simp
  match k with
  | 0 => simp [numSends, numResolves]
  | 1 => simp [List.take_succ_cons, numSends, numResolves, isResolve]
  | k + 2 =>
    rw [List.take_succ_cons, List.take_succ_cons]
    have hs : numSends (p.take k) = 0 :=
      Nat.le_zero.mp (hp ▸ numSends_take_le p k)
    rcases hr' with rfl | rfl <;>
      simp [numSends, numResolves, isResolve, hs]

theorem numSends_tickEvents (env : TickEnv) (g : Global) :
    numSends (tickEvents env g) = 1 := by
  simp only [tickEvents]
  split <;> split <;> rfl

theorem numResolves_tickEvents (env : TickEnv) (g : Global) :
    numResolves (tickEvents env g) = 1 := by
  simp only [tickEvents]
  split <;> split <;> rfl

theorem seqRun_balanced (envs : Nat → TickEnv) (g : Global) (n : Nat) :
    numSends (seqRun envs g n).2 = numResolves (seqRun envs g n).2 := by
  induction n with
  | zero => rfl
  | succ n ih =>
    rcases h : seqRun envs g n with ⟨og, evs⟩
    rw [h] at ih
    cases og with
    | some gn =>
      have e2 : (seqRun envs g (n + 1)).2 = evs ++ tickEvents (envs n) gn := by
        simp [seqRun, h]
      rw [e2, numSends_append, numResolves_append, numSends_tickEvents,
        numResolves_tickEvents, ih]
    | none =>
      have e2 : (seqRun envs g (n + 1)).2 = evs := by
        simp [seqRun, h]
      rw [e2]
      exact ih

set_option maxRecDepth 4000 in
/-- C3: the request-and-wait poll of the scheduler tick (timeout 250 ms, poll
interval 1 ms, lines 105-118) terminates with at most 250 ms of accumulated
waiting whatever the waiting flag does; in particular, when the flag is never
cleared (no response ever arrives) it stops after exactly the 250 ms
timeout. -/
theorem poll_terminates_within_timeout :
    (∀ cleared : Nat → Bool, pollWait cleared ≤ 250) ∧
    pollWait (fun _ => false) = 250 := by
  constructor
  · intro cleared
    simpa [pollWait] using pollLoop_le cleared 0 250
  · rfl

/-- A concrete tick environment in whose poll window a binary frame decoding
to the MessagePack scalar `5` arrives. -/
def tickEnvScalar : TickEnv :=
  { sendFails := false, response := some (0, .num 5), rnd := ⟨0, 0, 0⟩ }

/-- The initial shared state of the program (lines 17-21). -/
def gInit : Global := { latest_state := none, waiting_state := false, latest_cmd := none }

set_option maxRecDepth 4000 in
/-- C4 as stated is false on the code: in the tick during whose window a
binary frame decoding to the scalar `5` arrives, `on_message` stores the
non-dict in `latest_state` before its own read raises and never clears the
flag, so the tick times out — and then the snapshot copy `dict(latest_state)`
at line 124 raises an uncaught exception: the tick dies (`seqTick = none`)
and its event trace ends at the timeout with no publish, so this per-tick
failure does abort the loop. -/
theorem tick_abort_counterexample :
    seqTick tickEnvScalar gInit = none ∧
    tickEvents tickEnvScalar gInit =
      [SeqEvent.sendRequest, SeqEvent.resolveTimeout] ∧
    SeqEvent.publish ∉ tickEvents tickEnvScalar gInit := by
  have h : tickEvents tickEnvScalar gInit =
      [SeqEvent.sendRequest, SeqEvent.resolveTimeout] := rfl
  refine ⟨rfl, h, ?_⟩
  rw [h]
  decide

/-- C4 amended: when the state request times out, or its send fails with a
transport error (caught inside `request_state`), the tick still proceeds —
it takes the stale (or empty/`None`) latest state, invokes the decision
function on it, and publishes the resulting action — provided the
latest-state slot is empty or holds a dict, as it is whenever only
well-formed frames (or none) have been received; a binary frame decoding to
a non-dict instead makes the snapshot copy at line 124 raise, killing the
sequence loop without a publish. -/
theorem tick_proceeds_when_snapshot_ok :
    ∀ (env : TickEnv) (g : Global),
      snapshotOk (afterPoll env g).latest_state = true →
      seqTick env g =
        some { afterPoll env g with
               latest_cmd :=
                 some (ml_policy env.rnd (afterPoll env g).latest_state) } ∧
      (env.response = none → (afterPoll env g).latest_state = g.latest_state) ∧
      SeqEvent.publish ∈ tickEvents env g := by
  intro env g h
  refine ⟨?_, ?_, ?_⟩
  · simp [seqTick, h]
  · intro hr
    simp [afterPoll, hr]
  · simp [tickEvents, h]

/-- A concrete tick environment where the send fails and no response ever
arrives. -/
def tickEnvLost : TickEnv := { sendFails := true, response := none, rnd := ⟨0, 0, 0⟩ }

/-- Witness for the amended C4 at a concrete input: with the send failing,
the response lost, and an empty latest-state slot, the tick keeps the
(empty) snapshot, publishes the policy's action on it, and its event trace
contains the publish. -/
theorem tick_proceeds_witness :
    (afterPoll tickEnvLost gInit).latest_state = gInit.latest_state ∧
    seqTick tickEnvLost gInit =
      some { afterPoll tickEnvLost gInit with
             latest_cmd :=
               some (ml_policy tickEnvLost.rnd
                 (afterPoll tickEnvLost gInit).latest_state) } ∧
    SeqEvent.publish ∈ tickEvents tickEnvLost gInit :=
  ⟨(tick_proceeds_when_snapshot_ok tickEnvLost gInit rfl).2.1 rfl,
   (tick_proceeds_when_snapshot_ok tickEnvLost gInit rfl).1,
   (tick_proceeds_when_snapshot_ok tickEnvLost gInit rfl).2.2⟩

/-- C5: at most one state request is outstanding at a time: in every prefix of
the sequence loop's event trace, the number of requests sent exceeds the
number of requests resolved (by response or by timeout) by at most one — the
loop never sends a second request before the prior one resolved. -/
theorem at_most_one_outstanding_request :
    ∀ (envs : Nat → TickEnv) (g : Global) (n k : Nat),
      numSends ((seqRun envs g n).2.take k) ≤
        numResolves ((seqRun envs g n).2.take k) + 1 := by
  intro envs g n
  induction n with
  | zero => intro k; simp [seqRun, numSends, numResolves]
  | succ n ih =>
    intro k
    rcases h : seqRun envs g n with ⟨og, evs⟩
    have ihe : ∀ k2, numSends (evs.take k2) ≤ numResolves (evs.take k2) + 1 := by
      intro k2
      have hk2 := ih k2
      rw [h] at hk2
      exact hk2
    have hbal : numSends evs = numResolves evs := by
      have hb := seqRun_balanced envs g n
      rw [h] at hb
      exact hb
    cases og with
    | none =>
      have e2 : (seqRun envs g (n + 1)).2 = evs := by
        simp [seqRun, h]
      rw [e2]
      exact ihe k
    | some gn =>
      have e2 : (seqRun envs g (n + 1)).2 = evs ++ tickEvents (envs n) gn := by
        simp [seqRun, h]
      rw [e2, List.take_append_eq_append_take, numSends_append,
        numResolves_append]
      have hr' : isResolve (if pollWait (respCleared (envs n).response) < 250
          then SeqEvent.resolveResponse else SeqEvent.resolveTimeout) = true := by
        split <;> rfl
      have hp' : numSends (if snapshotOk (afterPoll (envs n) gn).latest_state
          then [SeqEvent.publish] else []) = 0 := by
        split <;> rfl
      have hblock := block_take_bound _ hr' _ hp' (k - evs.length)
      rcases le_or_lt k evs.length with hle | hlt
      · have hz : k - evs.length = 0 := by omega
        rw [hz]
        have hk' := ihe k
        simp only [List.take_zero, numSends, numResolves]
        omega
      · have ht : evs.take k = evs := List.take_of_length_le (by omega)
        rw [ht]
        have he : tickEvents (envs n) gn = SeqEvent.sendRequest ::
            (if pollWait (respCleared (envs n).response) < 250
             then SeqEvent.resolveResponse else SeqEvent.resolveTimeout) ::
            (if snapshotOk (afterPoll (envs n) gn).latest_state
             then [SeqEvent.publish] else []) := rfl
        rw [he]
        omega

/-- C6: every inbound binary state message — a frame decoding to a dict
whose "state" field, when present, is itself a dict, the shape of a
StreamData payload — unconditionally overwrites `latest_state` wholesale
with the decoded object and clears the waiting flag, whatever the prior
state: in particular after the requesting tick already timed out
(`waiting_state` still `true`) and over any previous snapshot
(last-writer-wins), so the next tick observes the newer snapshot;
`latest_cmd` is untouched.  (A malformed dict whose "state" field is a
non-dict still overwrites `latest_state` — the assignment at line 43
precedes the raising read — but the flag clear is skipped.) -/
theorem state_response_overwrites_and_clears :
    ∀ (g : Global) (entries : List (String × MVal)),
      stateFieldOk entries = true →
      on_message (.binary (some (.dict entries))) g =
        { latest_state := some (.dict entries),
          waiting_state := false,
          latest_cmd := g.latest_cmd } := by
  intro g entries h
  simp [on_message, clearsFlag, h]

/-- A well-formed StreamData message: its "state" field is a dict. -/
def streamDataMsg : List (String × MVal) :=
  [("state", .dict [("position", .arr [.num 1, .num 2, .num 3])]),
   ("timestamp", .num 42)]

/-- A shared state as left by a timed-out tick: the waiting flag still set
and an older snapshot in the slot. -/
def gStale : Global :=
  { latest_state := some (.dict [("timestamp", .num 1)]),
    waiting_state := true,
    latest_cmd := none }

/-- Witness for C6 at a concrete input: a well-formed state message arriving
after a timeout (flag still set, older snapshot present) overwrites the slot
and clears the flag. -/
theorem state_response_witness :
    on_message (.binary (some (.dict streamDataMsg))) gStale =
      { latest_state := some (.dict streamDataMsg),
        waiting_state := false,
        latest_cmd := gStale.latest_cmd } :=
  state_response_overwrites_and_clears gStale streamDataMsg (by decide)

/-- C10: the field-mapping helpers are total and range-bounded for every
input, including `none` and out-of-range numbers: `map_stick_x` lands in
`[-1, 1]` with `none ↦ 0`, and `map_trigger` lands in `[0, 255] ⊆ ℤ` with
`none ↦ 0`. -/
theorem mapping_helpers_total_and_bounded :
    ∀ (v : Option ℚ),
      (-1 ≤ map_stick_x v ∧ map_stick_x v ≤ 1) ∧
      (0 ≤ map_trigger v ∧ map_trigger v ≤ 255) ∧
      map_stick_x none = 0 ∧ map_trigger none = 0 := by
  intro v
  have hx0 : (0 : ℚ) ≤ clamp ((v.getD 0)) 0 1 := le_max_left _ _
  have hx1 : clamp ((v.getD 0)) 0 1 ≤ 1 :=
    max_le (by norm_num) (min_le_left _ _)
  refine ⟨⟨le_max_left _ _, max_le (by norm_num) (min_le_left _ _)⟩, ⟨?_, ?_⟩, ?_, ?_⟩
  · have h : (0 : ℚ) ≤ clamp ((v.getD 0)) 0 1 * 255 := by positivity
    simp only [map_trigger, pyTrunc, if_pos h]
    exact Int.le_floor.2 (by exact_mod_cast h)
  · have h : (0 : ℚ) ≤ clamp ((v.getD 0)) 0 1 * 255 := by positivity
    have h255 : clamp ((v.getD 0)) 0 1 * 255 ≤ 255 := by nlinarith
    simp only [map_trigger, pyTrunc, if_pos h]
    calc ⌊clamp ((v.getD 0)) 0 1 * 255⌋ ≤ ⌊(255 : ℚ)⌋ := Int.floor_le_floor h255
      _ = 255 := by norm_num
  · simp [map_stick_x, clamp]
  · simp [map_trigger, clamp, pyTrunc]

/-- The Y-button events of the controller loop over the reset stream
`[0.0, 0.9, 0.9, 0.3, 0.0]`, latch initially unset: a press on each of the
two ticks above the 0.5 threshold, then one release on the downward
crossing. -/
theorem vcRun_resetStream :
    vcRun (resetStream.map (fun r => some (actionWithReset r))) false =
      [PadEvent.press, PadEvent.press, PadEvent.release] := by
  simp [resetStream, vcRun, vcTick, isActionCmd, actionWithReset,
    asDictEntries, cmdEntries, getNum, dictFind]
  norm_num

/-- C1 as stated is false on the code: over the reset stream
`[0.0, 0.9, 0.9, 0.3, 0.0]` the controller loop does not issue exactly one
press and one release — `press_button` is re-issued on every tick whose reset
value exceeds 0.5 (lines 233-235), not only on the upward crossing. -/
theorem button_latch_counterexample :
    ¬ ((vcRun (resetStream.map (fun r => some (actionWithReset r)))
          false).count PadEvent.press = 1 ∧
       (vcRun (resetStream.map (fun r => some (actionWithReset r)))
          false).count PadEvent.release = 1) := by
  rw [vcRun_resetStream]
  decide

/-- C1 amended: over the reset stream `[0.0, 0.9, 0.9, 0.3, 0.0]` the
controller loop issues exactly two press events — one per tick with reset
above 0.5 — and exactly one release event: only the release side is latched
(`last_reset_pressed`), firing once per downward crossing. -/
theorem button_latch_two_presses_one_release :
    (vcRun (resetStream.map (fun r => some (actionWithReset r)))
        false).count PadEvent.press = 2 ∧
    (vcRun (resetStream.map (fun r => some (actionWithReset r)))
        false).count PadEvent.release = 1 := by
  rw [vcRun_resetStream]
  decide

/-- C7: at the end of every tick of both fixed-rate loops, with
`remaining = tickPeriod - elapsed` (tick period `1/UPDATE_HZ = 50 ms`): when
`remaining` is positive the loop sleeps exactly `remaining`; when it is zero
or negative it sleeps only the 1 ms yield and proceeds, so the loop never
accumulates a backlog. -/
theorem end_of_tick_sleep_policy :
    ∀ elapsed : ℚ,
      (0 < 1 / UPDATE_HZ - elapsed →
        seqEndSleep elapsed = 1 / UPDATE_HZ - elapsed ∧
        vcEndSleep elapsed = UPDATE_INTERVAL - elapsed) ∧
      (1 / UPDATE_HZ - elapsed ≤ 0 →
        seqEndSleep elapsed = 1/1000 ∧ vcEndSleep elapsed = 1/1000) := by
  intro elapsed
  constructor
  · intro h
    constructor
    · simp only [seqEndSleep]
      rw [if_pos h]
    · simp only [vcEndSleep, UPDATE_INTERVAL]
      rw [if_pos h]
  · intro h
    constructor
    · simp only [seqEndSleep]
      rw [if_neg (not_lt.mpr h)]
    · simp only [vcEndSleep, UPDATE_INTERVAL]
      rw [if_neg (not_lt.mpr h)]

/-- Witness for C7 at concrete inputs: a tick 25 ms ahead of its 50 ms period
sleeps the remaining 25 ms, and a tick one full second behind sleeps only the
1 ms yield. -/
theorem end_of_tick_sleep_witness :
    seqEndSleep (1/40) = 1/40 ∧ vcEndSleep 1 = 1/1000 := by
  constructor
  · have h := ((end_of_tick_sleep_policy (1/40)).1 (by norm_num [UPDATE_HZ])).1
    rw [h]
    norm_num [UPDATE_HZ]
  · exact ((end_of_tick_sleep_policy 1).2 (by norm_num [UPDATE_HZ])).2

/-- C8: when creation of the virtual gamepad fails, the program fails fast:
`start()` emits neither the controller-thread start, nor the `WebSocketApp`
creation, nor any connection attempt — it returns directly — and the
controller loop itself, handed no pad, returns immediately without running a
single tick (no pad events for any command stream). -/
theorem fail_fast_on_missing_pad :
    (∀ cmds : List (Option MVal), virtual_controller_loop none cmds = []) ∧
    MainEvent.vcThreadStart ∉ startEvents false ∧
    MainEvent.wsAppCreate ∉ startEvents false ∧
    MainEvent.connectAttempt ∉ startEvents false ∧
    (startEvents false).getLast? = some MainEvent.startReturn := by
  refine ⟨fun cmds => rfl, ?_, ?_, ?_, rfl⟩ <;> simp [startEvents]

/-- C2 as stated is false on the code: the program does not keep attempting
to connect after failures — `start()` calls `run_forever()` with no reconnect
argument and no surrounding loop, so exactly one connection attempt is ever
made; after the first connect failure there is no second attempt, hence "after
N consecutive connect failures the process is still attempting" already fails
at N = 1 (and the fixed 3-second retry delay does not exist anywhere). -/
theorem no_reconnect_counterexample :
    numConnectAttempts (startEvents true) = 1 ∧
    ¬ 2 ≤ numConnectAttempts (startEvents true) := by
  constructor
  · rfl
  · intro h
    simp [startEvents, numConnectAttempts] at h

/-- C2 amended: on any connect failure the callbacks (`on_error`/`on_close`)
only log and the program does not retry: the startup supervision makes exactly
one connection attempt, contains no retry delay of any duration, and ends with
`start()` returning. -/
theorem single_connect_attempt_no_retry :
    numConnectAttempts (startEvents true) = 1 ∧
    (∀ q : ℚ, MainEvent.retrySleep q ∉ startEvents true) ∧
    (startEvents true).getLast? = some MainEvent.startReturn := by
  refine ⟨rfl, ?_, rfl⟩
  intro q
  simp [startEvents]

/-- C9: a controller tick whose observed command is absent (nothing published
yet) or whose stored command is not an ACTION drives the effector with
neutral values: stick x = 0, both triggers = 0, and a reset of 0 — so no
press is issued that tick. -/
theorem neutral_when_no_action :
    ∀ (cmd : Option MVal) (lastResetPressed : Bool),
      isActionCmd cmd = false →
      (vcTick cmd lastResetPressed).1.stickX = 0 ∧
      (vcTick cmd lastResetPressed).1.leftTrigger = 0 ∧
      (vcTick cmd lastResetPressed).1.rightTrigger = 0 ∧
      PadEvent.press ∉ (vcTick cmd lastResetPressed).1.events := by
  intro cmd lastResetPressed h
  have hs : map_stick_x (some 0) = 0 := by
    simp [map_stick_x, clamp]
  have ht : map_trigger (some 0) = 0 := by
    simp [map_trigger, clamp, pyTrunc]
  have hr : ¬ ((0 : ℚ) > 1/2) := by norm_num
  simp only [vcTick, h, if_false, Bool.false_eq_true, if_neg hr]
  by_cases hl : lastResetPressed <;> simp [hl, hs, ht]

/-- Witness for C9 at a concrete input: before any command is published
(`latest_cmd = None`, latch unset) the tick is fully neutral. -/
theorem neutral_when_no_action_witness :
    (vcTick none false).1.stickX = 0 ∧
    (vcTick none false).1.leftTrigger = 0 ∧
    (vcTick none false).1.rightTrigger = 0 ∧
    PadEvent.press ∉ (vcTick none false).1.events :=
  neutral_when_no_action none false rfl

end ZeepkistClient
